import Mathlib

/-!
# Verification of `github_scim_user_management.py`

A shallow embedding of the SCIM user-provisioning script. The script reads
rows from a CSV file, transforms the `emails` and `roles` fields, formats each
row into a SCIM user record, and for each row looks the user up by `userName`
and creates it when the lookup finds nothing.

Modelling choices:
* Python dictionaries and JSON objects are association lists (`Dict`); CSV
  rows produced by `csv.DictReader` are association lists from header names to
  field strings (`Row`). Python dictionaries have unique keys, so first-match
  lookup agrees with Python lookup.
* JSON-ish heterogeneous values (strings, booleans, lists, objects) are the
  inductive type `Value`, with Python truthiness as `Value.truthy`.
* The network is an oracle `Server : Request → Except String Dict`: it stands
  for `requests.request` composed with `raise_for_status` and `.json()` in
  `_make_request`; a `.error` models a raised `RequestException` (the carried
  string is the exception text) and `.ok` the decoded JSON body (the 204
  branch is a server answering `.ok []`).
* Each client operation returns the list of events it produces (requests
  issued and log lines emitted, in order) next to its result.
-/

namespace GithubScim

/-- JSON-ish values: the shapes the script actually manipulates
(field strings, booleans, arrays, objects). -/
inductive Value where
  | str (s : String)
  | bool (b : Bool)
  | list (l : List Value)
  | obj (o : List (String × Value))

/-- A Python dict / JSON object, as an association list with unique keys. -/
abbrev Dict := List (String × Value)

/-- A raw CSV row from `csv.DictReader`: header name to field string. -/
abbrev Row := List (String × String)

/-- Python truthiness for the values the script tests:
empty strings, `False`, empty lists and empty dicts are falsy. -/
def Value.truthy : Value → Bool
  | .str s => s ≠ ""
  | .bool b => b
  | .list l => !l.isEmpty
  | .obj o => !o.isEmpty

/-- Python dict get: `d.get(k, default)`. -/
def dictGet (d : Dict) (k : String) (default : Value) : Value :=
  match d.lookup k with
  | some v => v
  | none => default

/-- Helper for `splitChar`: prepend a character to the first group. -/
def consHead (d : Char) : List (List Char) → List (List Char)
  | [] => [[d]]
  | g :: gs => (d :: g) :: gs

/-- Python's `str.split(sep)` for the one-character separator used by the
script: split at every occurrence of `c`; the result is never empty, and
splitting the empty string yields `[[]]` (Python: `''.split(';') == ['']`). -/
def splitChar (c : Char) : List Char → List (List Char)
  | [] => [[]]
  | d :: rest =>
      if d = c then [] :: splitChar c rest else consHead d (splitChar c rest)

/-- Python's `str.strip()`: drop leading and trailing whitespace. -/
def stripChars (l : List Char) : List Char :=
  ((l.dropWhile Char.isWhitespace).reverse.dropWhile Char.isWhitespace).reverse

/-- Split and strip: `[part.strip() for part in s.split(';')]` (used for both the `emails`
and the `roles` fields in `read_csv_file`). -/
def splitStrip (s : String) : List String :=
  (splitChar ';' s.toList).map (fun cs => ⟨stripChars cs⟩)

/-- The object `{"value": email, "type": "work", "primary": True}` built for each email
address in `read_csv_file`. -/
def emailObj (email : String) : Value :=
  .obj [("value", .str email), ("type", .str "work"), ("primary", .bool true)]

/-- The per-field transformation of `read_csv_file`'s row loop: a non-empty
`emails` field is split on `;` and mapped to email objects; a non-empty
`roles` field is split on `;` and replaced by its first element
(`role_list[0]`; the split of a non-empty string is never empty, so the
`headD` default is unreachable); every other field stays the raw string. -/
def transformField (k v : String) : Value :=
  if k = "emails" ∧ v ≠ "" then .list ((splitStrip v).map emailObj)
  else if k = "roles" ∧ v ≠ "" then .str ((splitStrip v).headD "")
  else .str v

/-- One iteration of `read_csv_file`'s `for row in reader` loop: the row with
its `emails` and `roles` fields transformed in place. Python mutates the two
keys of the dict; with unique keys this equals mapping `transformField` over
the entries. -/
def processRow (row : Row) : Dict :=
  row.map (fun p => (p.1, transformField p.1 p.2))

/-- The function `read_csv_file`, given the rows that `csv.DictReader` yields (file IO and
CSV lexing belong to the environment): each row is transformed and appended. -/
def read_csv_file (rows : List Row) : List Dict :=
  rows.map processRow

/-- The function `format_user_for_scim`: the fixed SCIM schema record built from a row. -/
def format_user_for_scim (user_data : Dict) : Dict :=
  [("schemas", .list [.str "urn:ietf:params:scim:schemas:core:2.0:User"]),
   ("externalId", dictGet user_data "userName" (.str "")),
   ("active", .bool true),
   ("userName", dictGet user_data "userName" (.str "")),
   ("displayName", dictGet user_data "displayName" (.str "")),
   ("emails", dictGet user_data "emails" (.list [])),
   ("roles", .list [.obj [("value", dictGet user_data "roles" (.str "user")),
                          ("primary", .bool true)]])]

/-- An HTTP request as `_make_request` issues it: method, URL and optional
JSON payload (the fixed auth headers carry no claim-relevant information and
are elided). -/
structure Request where
  method : String
  url : String
  body : Option Dict

/-- The network oracle standing for `_make_request`'s
`requests.request` + `raise_for_status` + `.json()`: an `.error` is a raised
`RequestException` (carrying the exception text), an `.ok` the decoded body. -/
abbrev Server := Request → Except String Dict

/-- Python's `str.rstrip('/')`: drop trailing slashes. -/
def rstripSlash (s : String) : String :=
  ⟨(s.toList.reverse.dropWhile (· = '/')).reverse⟩

/-- The string `base_url.rstrip('/')` followed by the fixed enterprise SCIM users path,
as computed in `GithubScimClient.__init__`. -/
def scimEndpoint (base_url : String) : String :=
  rstripSlash base_url ++ "/scim/v2/enterprises/xfusion-digital-technologies/Users"

/-- An observable step of a run: a request put on the wire, or a log line. -/
inductive Event where
  | request (r : Request)
  | logWarning (msg : String)
  | logInfo (msg : String)
  | logError (msg : String)

/-- Is this event an issued request? -/
def Event.isRequest : Event → Bool
  | .request _ => true
  | _ => false

/-- The request of an event, when it is one. -/
def Event.request? : Event → Option Request
  | .request r => some r
  | _ => none

/-- The GET request `list_users` builds: the endpoint with the optional
`?filter=` query string. -/
def listRequest (ep : String) (filter_str : Option String) : Request :=
  { method := "GET",
    url := match filter_str with
           | some f => ep ++ "?filter=" ++ f
           | none => ep,
    body := none }

/-- The method `GithubScimClient.list_users`: one GET, then `response.get("Resources", [])`.
The SCIM `Resources` field is a JSON array (the method's return annotation is
`List[Dict]`), so a present key is matched as a list. Returns the events
produced and the result (`.error` when the request raised). -/
def list_users (server : Server) (ep : String) (filter_str : Option String) :
    List Event × Except String (List Value) :=
  let req := listRequest ep filter_str
  ([.request req],
   (server req).map (fun resp =>
     match resp.lookup "Resources" with
     | some (.list l) => l
     | _ => []))

/-- The method `GithubScimClient.get_user`: a single filtered `list_users` call, then
`users[0] if users else None` (list truthiness is non-emptiness, so this is
`head?`). -/
def get_user (server : Server) (ep : String) (username : String) :
    List Event × Except String (Option Value) :=
  let (evs, res) := list_users server ep
    (some ("userName eq \"" ++ username ++ "\""))
  (evs, res.map List.head?)

/-- The method `GithubScimClient.get_user_by_id`: a GET on `endpoint/user_id`. -/
def get_user_by_id (server : Server) (ep : String) (user_id : String) :
    List Event × Except String Dict :=
  let req : Request := { method := "GET", url := ep ++ "/" ++ user_id, body := none }
  ([.request req], server req)

/-- The method `GithubScimClient.create_user`: logs the user being created (the three
`logger.info` lines are modelled as one event), then POSTs the payload to the
endpoint. -/
def create_user (server : Server) (ep : String) (user_data : Dict) :
    List Event × Except String Dict :=
  let req : Request := { method := "POST", url := ep, body := some user_data }
  ([.logInfo ("Creating user: " ++
      (match dictGet user_data "userName" (.str "") with
       | .str s => s
       | _ => "")),
    .request req],
   server req)

/-- The body of `process_users`'s `for user_data in users` loop for one row:
`username = user_data.get("userName")`; a falsy username (absent or empty)
logs a warning and skips; otherwise the row is processed inside `try`:
the lookup, then either the skip message or the format-and-create, any
raised exception being caught and logged (`except` ends the iteration, the
loop continues with the next row). `if existing_user:` is Python truthiness:
`None` and an empty dict both take the create branch.

The last `match` arm (a present, truthy, non-string `userName`) cannot arise
from `read_csv_file`, which stores `userName` as a raw string; it is modelled
as producing no events. -/
def processOne (server : Server) (ep : String) (user_data : Dict) : List Event :=
  match user_data.lookup "userName" with
  | some (.str username) =>
    if username = "" then [.logWarning "Skipping user with missing userName"]
    else
      let (evs, res) := get_user server ep username
      match res with
      | .error e =>
          evs ++ [.logError ("Error processing user " ++ username ++ ": " ++ e)]
      | .ok existing =>
        if (match existing with | some u => u.truthy | none => false) then
          evs ++ [.logInfo ("User " ++ username ++ " already exists, skipping creation")]
        else
          let (cevs, cres) := create_user server ep (format_user_for_scim user_data)
          match cres with
          | .error e =>
              evs ++ cevs ++ [.logError ("Error processing user " ++ username ++ ": " ++ e)]
          | .ok _ =>
              evs ++ cevs ++ [.logInfo ("Created user " ++ username)]
  | none => [.logWarning "Skipping user with missing userName"]
  | some v =>
    if v.truthy then [] else [.logWarning "Skipping user with missing userName"]

/-- The function `process_users`: the loop over all rows, in order; every iteration runs to
its end (warning skip, info skip, create, or caught-and-logged error) and the
loop always moves on to the next row. -/
def process_users (server : Server) (ep : String) : List Dict → List Event
  | [] => []
  | user_data :: rest =>
      processOne server ep user_data ++ process_users server ep rest

/-- The requests a trace puts on the wire, in order. -/
def requestsOf (tr : List Event) : List Request :=
  tr.filterMap Event.request?

/-- Does the trace issue a POST (create) request? -/
def containsPost (tr : List Event) : Bool :=
  (requestsOf tr).any (fun r => r.method = "POST")

/-- Every request of the trace is a GET or a POST. -/
def methodsGetOrPost (tr : List Event) : Bool :=
  (requestsOf tr).all (fun r => r.method = "GET" || r.method = "POST")

/-- Did the lookup complete without raising? -/
def lookupCompleted : Except String (Option Value) → Bool
  | .ok _ => true
  | .error _ => false

/-- Did the lookup return a truthy (Python sense) existing record?
`None` and the empty object `{}` are falsy. -/
def foundTruthy : Except String (Option Value) → Bool
  | .ok (some v) => v.truthy
  | _ => false

/-- Did the lookup return any record at all (even a falsy one)? -/
def foundRecord : Except String (Option Value) → Bool
  | .ok (some _) => true
  | _ => false

/-- Is any request event preceded (not necessarily immediately) by a
`logError` event in the trace? True means the run kept issuing requests
after an error was logged. -/
def requestAfterError : List Event → Bool
  | [] => false
  | .logError _ :: rest => rest.any Event.isRequest || requestAfterError rest
  | _ :: rest => requestAfterError rest

/-! Concrete fixtures used by witnesses and counterexamples. -/

/-- Fixture: a CSV row with two emails and two roles. -/
def rowAlice : Row :=
  [("userName", "alice"), ("displayName", "Alice"),
   ("emails", "a@x.com; b@y.com"), ("roles", "admin;user")]

/-- Fixture: a second CSV row with the same userName as `rowAlice`. -/
def rowAliceTwo : Row :=
  [("userName", "alice"), ("displayName", "Alice Again")]

/-- Fixture: a parsed row for alice. -/
def dictAlice : Dict := [("userName", .str "alice")]

/-- Fixture: a parsed row for bob. -/
def dictBob : Dict := [("userName", .str "bob")]

/-- Fixture: endpoint string used in witnesses. -/
def epX : String := "E"

/-- Fixture server: GETs answer an empty `Resources` list (nobody exists),
POSTs answer a created record. -/
def srvNobody : Server := fun req =>
  if req.method = "GET" then .ok [("Resources", .list [])]
  else .ok [("id", .str "9")]

/-- Fixture server: GETs answer a `Resources` list holding one empty object
`{}` — a found record that is Python-falsy. -/
def srvEmptyRecord : Server := fun req =>
  if req.method = "GET" then .ok [("Resources", .list [.obj []])]
  else .ok [("id", .str "9")]

/-- Fixture: an existing SCIM record for carol. -/
def recCarol : Value := .obj [("id", .str "1"), ("userName", .str "carol")]

/-- Fixture server: GETs answer a `Resources` list holding `recCarol`. -/
def srvCarol : Server := fun req =>
  if req.method = "GET" then .ok [("Resources", .list [recCarol])]
  else .ok [("id", .str "9")]

/-- Fixture server: the lookup for alice raises; everything else answers as
`srvNobody`. -/
def srvAliceDown : Server := fun req =>
  if req.url = epX ++ "?filter=" ++ "userName eq \"alice\"" then .error "boom"
  else srvNobody req

/-! ## Helper lemmas -/

/-- Looking a key up after mapping a key-preserving function over an
association list applies the function to the value found under that key. -/
theorem lookup_map_value (f : String → String → Value) (k : String) :
    ∀ l : Row,
      (l.map (fun p => (p.1, f p.1 p.2))).lookup k = (l.lookup k).map (f k)
  | [] => rfl
  | (k₁, v₁) :: rest => by
      cases h : (k == k₁) with
      | true =>
          have hk : k = k₁ := by simpa using h
          simp [List.lookup, h, hk]
      | false => simp [List.lookup, h, lookup_map_value f k rest]

/-- The projection `requestsOf` distributes over trace concatenation. -/
theorem requestsOf_append (a b : List Event) :
    requestsOf (a ++ b) = requestsOf a ++ requestsOf b := by
  simp [requestsOf]

/-- The lookup of `processRow` is the raw row's lookup transformed. -/
theorem processRow_lookup (row : Row) (k : String) :
    (processRow row).lookup k = (row.lookup k).map (transformField k) :=
  lookup_map_value transformField k row

/-- Characterization of one loop iteration for a row whose userName is the
non-empty string `u`: the trace opens with the filtered lookup request and
then follows the lookup's outcome (caught error / truthy-record skip /
format-and-create, whose own outcome is in turn logged or caught). -/
theorem processOne_eq (server : Server) (ep : String) (row : Dict) (u : String)
    (h : row.lookup "userName" = some (.str u)) (hne : u ≠ "") :
    processOne server ep row =
      .request (listRequest ep (some ("userName eq \"" ++ u ++ "\""))) ::
      (match (get_user server ep u).2 with
       | .error e => [.logError ("Error processing user " ++ u ++ ": " ++ e)]
       | .ok existing =>
         if (match existing with | some v => v.truthy | none => false) then
           [.logInfo ("User " ++ u ++ " already exists, skipping creation")]
         else
           [.logInfo ("Creating user: " ++ u),
            .request { method := "POST", url := ep,
                       body := some (format_user_for_scim row) }] ++
           (match server { method := "POST", url := ep,
                           body := some (format_user_for_scim row) } with
            | .error e => [.logError ("Error processing user " ++ u ++ ": " ++ e)]
            | .ok _ => [.logInfo ("Created user " ++ u)])) := by
  have hformat : dictGet row "userName" (.str "") = .str u := by
    simp [dictGet, h]
  have hformat₂ : dictGet (format_user_for_scim row) "userName" (.str "") =
      Value.str u := hformat
  simp only [processOne, h, if_neg hne, get_user, list_users, create_user,
    Except.map]
  cases hsrv : server (listRequest ep (some ("userName eq \"" ++ u ++ "\""))) with
  | error e => rfl
  | ok resp =>
      cases hex : (match resp.lookup "Resources" with
                   | some (Value.list l) => l
                   | _ => []).head? with
      | none =>
          cases hpost : server ⟨"POST", ep, some (format_user_for_scim row)⟩ <;>
            simp [hex, hpost, hformat₂]
      | some v =>
          cases htr : v.truthy with
          | true => simp [hex, htr]
          | false =>
              cases hpost : server ⟨"POST", ep, some (format_user_for_scim row)⟩ <;>
                simp [hex, htr, hpost, hformat₂]

/-! ## Claim theorems -/

/-- C4: for every input record, `format_user_for_scim` produces exactly the
fields `schemas`, `externalId`, `active`, `userName`, `displayName`,
`emails`, `roles`; `schemas` is always the fixed SCIM core-user URN list,
`active` is always `True`, and `externalId` equals the record's `userName`
(the empty string when `userName` is absent). -/
theorem format_user_fixed_fields (u : Dict) :
    (format_user_for_scim u).map Prod.fst =
      ["schemas", "externalId", "active", "userName", "displayName",
       "emails", "roles"] ∧
    (format_user_for_scim u).lookup "schemas" =
      some (.list [.str "urn:ietf:params:scim:schemas:core:2.0:User"]) ∧
    (format_user_for_scim u).lookup "active" = some (.bool true) ∧
    (∀ v, u.lookup "userName" = some v →
        (format_user_for_scim u).lookup "externalId" = some v) ∧
    (u.lookup "userName" = none →
        (format_user_for_scim u).lookup "externalId" = some (.str "")) := by
  have base : (format_user_for_scim u).lookup "externalId" =
      some (dictGet u "userName" (.str "")) := rfl
  refine ⟨rfl, rfl, rfl, ?_, ?_⟩
  · intro v hv
    rw [base]
    simp [dictGet, hv]
  · intro hv
    rw [base]
    simp [dictGet, hv]

/-- Witness for C4 at a concrete record with a userName. -/
theorem format_user_fixed_fields_witness :
    (format_user_for_scim dictAlice).lookup "externalId" =
      some (.str "alice") :=
  (format_user_fixed_fields dictAlice).2.2.2.1 (.str "alice") rfl

/-- C5: the field mapping is deterministic: equal input records give equal
provisioning records. -/
theorem format_user_deterministic (u₁ u₂ : Dict) (h : u₁ = u₂) :
    format_user_for_scim u₁ = format_user_for_scim u₂ := by rw [h]

/-- Witness for C5 at a concrete record. -/
theorem format_user_deterministic_witness :
    format_user_for_scim dictAlice = format_user_for_scim dictAlice :=
  format_user_deterministic dictAlice dictAlice rfl

/-- C9: a non-empty `emails` field is split on semicolons and every resulting
address becomes `{"value": addr, "type": "work", "primary": True}` — every
address of the row is marked primary, not just one. -/
theorem emails_split_all_primary (row : Row) (s : String)
    (h : row.lookup "emails" = some s) (hne : s ≠ "") :
    (processRow row).lookup "emails" =
      some (.list ((splitStrip s).map emailObj)) ∧
    ∀ addr ∈ splitStrip s,
      ∃ o, emailObj addr = .obj o ∧
        o.lookup "value" = some (.str addr) ∧
        o.lookup "type" = some (.str "work") ∧
        o.lookup "primary" = some (.bool true) := by
  constructor
  · rw [processRow_lookup, h]
    simp [transformField, hne]
  · intro addr _
    exact ⟨_, rfl, rfl, rfl, rfl⟩

/-- Witness for C9: a row listing two addresses parses to two email objects,
and the second one is also marked primary. -/
theorem emails_split_all_primary_witness :
    (processRow rowAlice).lookup "emails" =
      some (.list [emailObj "a@x.com", emailObj "b@y.com"]) ∧
    (emailObj "b@y.com") = .obj [("value", .str "b@y.com"),
      ("type", .str "work"), ("primary", .bool true)] := by
  have h := emails_split_all_primary rowAlice "a@x.com; b@y.com" rfl (by decide)
  exact ⟨h.1, rfl⟩

/-- C10: a multi-role field keeps only its first role (the rest are dropped),
and `format_user_for_scim` emits a single-element `roles` list whose value
defaults to `"user"` when the field is absent. -/
theorem roles_first_only (row : Row) (s r : String) (rs : List String)
    (u : Dict)
    (h : row.lookup "roles" = some s) (hne : s ≠ "")
    (hsplit : splitStrip s = r :: rs) :
    (processRow row).lookup "roles" = some (.str r) ∧
    (format_user_for_scim u).lookup "roles" =
      some (.list [.obj [("value", dictGet u "roles" (.str "user")),
                         ("primary", .bool true)]]) ∧
    (u.lookup "roles" = none →
      (format_user_for_scim u).lookup "roles" =
        some (.list [.obj [("value", .str "user"),
                           ("primary", .bool true)]])) := by
  refine ⟨?_, rfl, ?_⟩
  · rw [processRow_lookup, h]
    simp [transformField, hne, hsplit]
  · intro hu
    have base : (format_user_for_scim u).lookup "roles" =
        some (.list [.obj [("value", dictGet u "roles" (.str "user")),
                           ("primary", .bool true)]]) := rfl
    rw [base]
    simp [dictGet, hu]

/-- Witness for C10: `"admin;user"` keeps only `"admin"`, and a record
without a roles field formats to the default role `"user"`. -/
theorem roles_first_only_witness :
    (processRow rowAlice).lookup "roles" = some (.str "admin") ∧
    (format_user_for_scim dictAlice).lookup "roles" =
      some (.list [.obj [("value", .str "user"),
                         ("primary", .bool true)]]) := by
  have h := roles_first_only rowAlice "admin;user" "admin" ["user"] dictAlice
    rfl (by decide) rfl
  exact ⟨h.1, h.2.2 rfl⟩

/-- C3 counterexample: a batch parsed from two CSV rows that both carry
userName `"alice"`: the parsed rows share the same userName (their
userNames are not pairwise distinct) and both rows are processed — against a
server where nobody exists, each of the two rows issues its lookup and its
create, four requests in all. -/
theorem duplicate_usernames_in_batch :
    (read_csv_file [rowAlice, rowAliceTwo]).map (fun r => r.lookup "userName") =
      [some (.str "alice"), some (.str "alice")] ∧
    ¬ List.Pairwise (fun r₁ r₂ => r₁.lookup "userName" ≠ r₂.lookup "userName")
        (read_csv_file [rowAlice, rowAliceTwo]) ∧
    (requestsOf (process_users srvNobody epX
        (read_csv_file [rowAlice, rowAliceTwo]))).length = 4 := by
  refine ⟨rfl, ?_, rfl⟩
  intro h
  exact (List.pairwise_cons.mp h).1 _ (List.mem_cons_self _ _) rfl

/-- C3 (amended): uniqueness of userName within a batch is not an invariant
the program establishes: `read_csv_file` maps input rows to parsed rows
one-to-one, preserving each row's userName verbatim, so duplicates present
in the input survive into the batch handed to `process_users`. -/
theorem read_csv_preserves_usernames (rows : List Row) :
    (read_csv_file rows).length = rows.length ∧
    (read_csv_file rows).map (fun r => r.lookup "userName") =
      rows.map (fun r => (r.lookup "userName").map Value.str) := by
  constructor
  · simp [read_csv_file]
  · simp only [read_csv_file, List.map_map]
    refine List.map_congr_left ?_
    intro row _
    rw [Function.comp_apply, processRow_lookup]
    cases row.lookup "userName" with
    | none => rfl
    | some v => simp [transformField]

/-- C7: the existence check issues exactly one list request, filtered on the
username, and no other request (no pagination): its result is the first
record of the response's `Resources` list when that list is non-empty, and
`None` when the list is empty or the `Resources` key is absent. -/
theorem get_user_single_filtered_lookup (server : Server) (ep u : String) :
    (get_user server ep u).1 =
      [.request (listRequest ep (some ("userName eq \"" ++ u ++ "\"")))] ∧
    (∀ resp r l,
        server (listRequest ep (some ("userName eq \"" ++ u ++ "\""))) = .ok resp →
        resp.lookup "Resources" = some (.list (r :: l)) →
        (get_user server ep u).2 = .ok (some r)) ∧
    (∀ resp,
        server (listRequest ep (some ("userName eq \"" ++ u ++ "\""))) = .ok resp →
        resp.lookup "Resources" = some (.list []) →
        (get_user server ep u).2 = .ok none) ∧
    (∀ resp,
        server (listRequest ep (some ("userName eq \"" ++ u ++ "\""))) = .ok resp →
        resp.lookup "Resources" = none →
        (get_user server ep u).2 = .ok none) := by
  refine ⟨rfl, ?_, ?_, ?_⟩
  · intro resp r l hsrv hres
    simp [get_user, list_users, hsrv, hres, Except.map]
  · intro resp hsrv hres
    simp [get_user, list_users, hsrv, hres, Except.map]
  · intro resp hsrv hres
    simp [get_user, list_users, hsrv, hres, Except.map]

/-- Witness for C7: against `srvCarol` the lookup for carol issues the single
filtered GET and returns the first (only) record of `Resources`. -/
theorem get_user_single_filtered_lookup_witness :
    (get_user srvCarol epX "carol").1 =
      [.request (listRequest epX (some ("userName eq \"" ++ "carol" ++ "\"")))] ∧
    (get_user srvCarol epX "carol").2 = .ok (some recCarol) :=
  ⟨(get_user_single_filtered_lookup srvCarol epX "carol").1,
   (get_user_single_filtered_lookup srvCarol epX "carol").2.1
     [("Resources", .list [recCarol])] recCarol [] rfl rfl⟩

/-- C8: a parsed row whose userName is absent or empty is skipped entirely:
its only event is the warning log — no lookup and no create request — and
the loop continues with the remaining rows. -/
theorem missing_username_skipped (server : Server) (ep : String)
    (row : Dict) (rest : List Dict)
    (h : row.lookup "userName" = none ∨ row.lookup "userName" = some (.str "")) :
    processOne server ep row = [.logWarning "Skipping user with missing userName"] ∧
    requestsOf (processOne server ep row) = [] ∧
    process_users server ep (row :: rest) =
      .logWarning "Skipping user with missing userName" :: process_users server ep rest := by
  have hone : processOne server ep row =
      [.logWarning "Skipping user with missing userName"] := by
    rcases h with h | h <;> simp [processOne, h]
  refine ⟨hone, ?_, ?_⟩
  · rw [hone]; rfl
  · rw [process_users, hone]; rfl

/-- Witness for C8: the empty row has no userName and is skipped with only
the warning event. -/
theorem missing_username_skipped_witness :
    processOne srvNobody epX [] =
      [.logWarning "Skipping user with missing userName"] ∧
    process_users srvNobody epX [[], dictBob] =
      .logWarning "Skipping user with missing userName" ::
        process_users srvNobody epX [dictBob] :=
  ⟨(missing_username_skipped srvNobody epX [] [dictBob] (Or.inl rfl)).1,
   (missing_username_skipped srvNobody epX [] [dictBob] (Or.inl rfl)).2.2⟩

/-- C1 (amended): for every parsed row with a non-empty userName the program
first issues the lookup for that userName, and issues a create call if and
only if the lookup completed and reported nothing truthy — no record, or a
record that is the Python-falsy empty object `{}`; when a truthy record is
found, the row is skipped and no create call is made for it. -/
theorem create_iff_lookup_reports_nothing_truthy (server : Server)
    (ep : String) (row : Dict) (u : String)
    (h : row.lookup "userName" = some (.str u)) (hne : u ≠ "") :
    (processOne server ep row).head? =
      some (.request (listRequest ep (some ("userName eq \"" ++ u ++ "\"")))) ∧
    containsPost (processOne server ep row) =
      (lookupCompleted (get_user server ep u).2 &&
        !foundTruthy (get_user server ep u).2) := by
  rw [processOne_eq server ep row u h hne]
  refine ⟨rfl, ?_⟩
  cases hres : (get_user server ep u).2 with
  | error e =>
      simp [containsPost, requestsOf, Event.request?, lookupCompleted,
        foundTruthy, listRequest]
  | ok existing =>
      cases existing with
      | none =>
          cases server ⟨"POST", ep, some (format_user_for_scim row)⟩ <;>
            simp [containsPost, requestsOf, Event.request?, lookupCompleted,
              foundTruthy, listRequest]
      | some v =>
          cases htr : v.truthy with
          | true =>
              simp [htr, containsPost, requestsOf, Event.request?,
                lookupCompleted, foundTruthy, listRequest]
          | false =>
              cases server ⟨"POST", ep, some (format_user_for_scim row)⟩ <;>
                simp [htr, containsPost, requestsOf, Event.request?,
                  lookupCompleted, foundTruthy, listRequest]

/-- Witness for C1 (amended) at a server with no existing users: the trace
opens with the lookup and the create is issued since nothing was found. -/
theorem create_iff_lookup_reports_nothing_truthy_witness :
    (processOne srvNobody epX dictAlice).head? =
      some (.request (listRequest epX
        (some ("userName eq \"" ++ "alice" ++ "\"")))) ∧
    containsPost (processOne srvNobody epX dictAlice) =
      (lookupCompleted (get_user srvNobody epX "alice").2 &&
        !foundTruthy (get_user srvNobody epX "alice").2) :=
  create_iff_lookup_reports_nothing_truthy srvNobody epX dictAlice "alice"
    rfl (by decide)

/-- C1 counterexample: against a server whose lookup answers
`{"Resources": [{}]}`, the lookup finds an existing record — `get_user`
returns the empty object, not `None` — yet a create request is still issued
for the row, because `if existing_user:` tests Python truthiness rather than
presence. -/
theorem create_despite_existing_record :
    foundRecord (get_user srvEmptyRecord epX "alice").2 = true ∧
    containsPost (processOne srvEmptyRecord epX dictAlice) = true :=
  ⟨rfl, rfl⟩

/-- C2 (amended): failures are handled per row, inside the loop: when the
lookup raises, the row's trace is exactly the lookup request followed by the
logged error (no retry, no further request for that row); when the create
raises, the row's trace ends with the logged error after the single create
attempt; and in every case the loop continues with the remaining rows
rather than exiting. -/
theorem operation_failure_logged_and_loop_continues (server : Server)
    (ep : String) (row : Dict) (rest : List Dict) (u : String)
    (h : row.lookup "userName" = some (.str u)) (hne : u ≠ "") :
    (∀ e, (get_user server ep u).2 = .error e →
        processOne server ep row =
          [.request (listRequest ep (some ("userName eq \"" ++ u ++ "\""))),
           .logError ("Error processing user " ++ u ++ ": " ++ e)]) ∧
    (∀ e existing, (get_user server ep u).2 = .ok existing →
        (match existing with | some v => v.truthy | none => false) = false →
        server ⟨"POST", ep, some (format_user_for_scim row)⟩ = .error e →
        processOne server ep row =
          [.request (listRequest ep (some ("userName eq \"" ++ u ++ "\""))),
           .logInfo ("Creating user: " ++ u),
           .request ⟨"POST", ep, some (format_user_for_scim row)⟩,
           .logError ("Error processing user " ++ u ++ ": " ++ e)]) ∧
    process_users server ep (row :: rest) =
      processOne server ep row ++ process_users server ep rest := by
  refine ⟨?_, ?_, rfl⟩
  · intro e he
    rw [processOne_eq server ep row u h hne, he]
  · intro e existing hok hfalsy hpost
    rw [processOne_eq server ep row u h hne, hok]
    simp [hfalsy, hpost]

/-- Witness for C2 (amended): alice's lookup raises `boom`; her row's trace
is the lookup plus the logged error, and bob's row is still processed. -/
theorem operation_failure_logged_and_loop_continues_witness :
    processOne srvAliceDown epX dictAlice =
      [.request (listRequest epX (some ("userName eq \"" ++ "alice" ++ "\""))),
       .logError ("Error processing user " ++ "alice" ++ ": " ++ "boom")] ∧
    process_users srvAliceDown epX [dictAlice, dictBob] =
      processOne srvAliceDown epX dictAlice ++
        process_users srvAliceDown epX [dictBob] :=
  ⟨(operation_failure_logged_and_loop_continues srvAliceDown epX dictAlice
      [dictBob] "alice" rfl (by decide)).1 "boom" rfl,
   (operation_failure_logged_and_loop_continues srvAliceDown epX dictAlice
      [dictBob] "alice" rfl (by decide)).2.2⟩

/-- C2 counterexample: with alice's lookup failing, the run logs the error
and then keeps going — it issues further requests (bob's lookup and create)
after the logged failure, instead of stopping or exiting. -/
theorem requests_continue_after_error :
    requestAfterError (process_users srvAliceDown epX [dictAlice, dictBob]) =
      true := rfl

/-- The check `methodsGetOrPost` over a concatenation of traces. -/
theorem methodsGetOrPost_append (a b : List Event) :
    methodsGetOrPost (a ++ b) =
      (methodsGetOrPost a && methodsGetOrPost b) := by
  simp [methodsGetOrPost, requestsOf_append, List.all_append]

/-- Every request a single iteration issues is a GET or a POST. -/
theorem methodsGetOrPost_processOne (server : Server) (ep : String)
    (row : Dict) :
    methodsGetOrPost (processOne server ep row) = true := by
  cases hl : row.lookup "userName" with
  | none => simp [processOne, hl, methodsGetOrPost, requestsOf, Event.request?]
  | some v =>
      cases v with
      | str s =>
          by_cases hs : s = ""
          · simp [processOne, hl, hs, methodsGetOrPost, requestsOf,
              Event.request?]
          · rw [processOne_eq server ep row s hl hs]
            cases hres : (get_user server ep s).2 with
            | error e =>
                simp [methodsGetOrPost, requestsOf, Event.request?,
                  listRequest]
            | ok existing =>
                cases hex : (match existing with
                             | some w => w.truthy
                             | none => false) with
                | true =>
                    simp [hex, methodsGetOrPost, requestsOf, Event.request?,
                      listRequest]
                | false =>
                    cases server ⟨"POST", ep, some (format_user_for_scim row)⟩ <;>
                      simp [hex, methodsGetOrPost, requestsOf, Event.request?,
                        listRequest]
      | bool b =>
          cases b <;>
            simp [processOne, hl, Value.truthy, methodsGetOrPost, requestsOf,
              Event.request?]
      | list l =>
          simp only [processOne, hl]
          split <;> simp [methodsGetOrPost, requestsOf, Event.request?]
      | obj o =>
          simp only [processOne, hl]
          split <;> simp [methodsGetOrPost, requestsOf, Event.request?]

/-- C6: over any run of the processing loop, every request issued is a GET
(lookup) or a POST (create); no PUT and no DELETE request is ever issued. -/
theorem run_requests_only_get_or_post (server : Server) (ep : String)
    (users : List Dict) :
    methodsGetOrPost (process_users server ep users) = true := by
  induction users with
  | nil => rfl
  | cons row rest ih =>
      rw [process_users, methodsGetOrPost_append,
        methodsGetOrPost_processOne, ih]
      rfl

end GithubScim
